import Mathlib

/-!
Verification development for the Campus-Connect repository.

The repository's resume-screening service (the ATS scoring engine, skill
matcher and feedback generator of `Backend/`: `ats_engine.py`,
`feedback_generator.py`, `main.py`) is documented in `Backend/README.md`
and in the specification, but its Python sources are not present in the
tree; only its documentation, its TypeScript type declarations
(`types/api.ts`) and its HTTP callers (`client/lib/api.ts`) are. Those
components are therefore modelled here from the specification's words.
The client-side code that is present (`client/lib/api.ts`'s `apiRequest`
wrapper and `pages/EditProfilePage.jsx`'s `handleResumeUpload`) is
embedded directly from the source.

Scores are modelled as rationals (`ℚ`); the Python engine computes with
floats, but every formula in scope is exact at the inputs considered.
-/

namespace CampusConnect

/-- Modelled from the spec: the `education_level` enumeration of §3,
`{none, associate, bachelor, master, doctorate}` (missing backend
`models.py`). -/
inductive EducationLevel where
  | none
  | associate
  | bachelor
  | master
  | doctorate
deriving DecidableEq, Repr

/-- Modelled from the spec: the enum ordinal used by the education
sub-score of §4.4 (missing backend `ats_engine.py`). -/
def EducationLevel.ordinal : EducationLevel → ℕ
  | .none => 0
  | .associate => 1
  | .bachelor => 2
  | .master => 3
  | .doctorate => 4

/-- Modelled from the spec: an education entry of §3's `ResumeRecord`
(missing backend `models.py`). -/
structure EducationEntry where
  degree : String
  institution : String
  level : EducationLevel
deriving DecidableEq, Repr

/-- Modelled from the spec: an experience entry of §3's `ResumeRecord`
(missing backend `models.py`). -/
structure ExperienceEntry where
  title : String
  organization : String
  duration_years : ℚ
deriving DecidableEq, Repr

/-- Modelled from the spec: §3's `ResumeRecord` (missing backend
`models.py`). The optional contact triple is flattened into three
optional fields. -/
structure ResumeRecord where
  raw_text : String
  contact_name : Option String
  contact_email : Option String
  contact_phone : Option String
  skills : Finset String
  education_entries : List EducationEntry
  experience_entries : List ExperienceEntry
  certifications : Finset String
  total_experience_years : ℚ
deriving DecidableEq

/-- Modelled from the spec: §3's `JobRequirement` (missing backend
`models.py`). `minimum_ats_score` is optional with the default 50.0
applied when unspecified (§4.4, README "default: 50.0"). -/
structure JobRequirement where
  title : String
  required_skills : Finset String
  preferred_skills : Finset String
  education_level : EducationLevel
  years_of_experience : ℚ
  keywords : Finset String
  minimum_ats_score : Option ℚ
deriving DecidableEq

/-- Modelled from the spec: §3's `EvaluationResult` (missing backend
`models.py`); field names follow §3/§4.4. -/
structure EvaluationResult where
  ats_score : ℚ
  skill_match : ℚ
  education_score : ℚ
  experience_score : ℚ
  keyword_match_score : ℚ
  format_score : ℚ
  passed : Bool
  matched_skills : Finset String
  missing_skills : Finset String
deriving DecidableEq

/-- Modelled from the spec: §4.3 canonicalization — lower-cased,
trimmed skill names (missing backend matcher). -/
def canon (s : String) : String := s.toLower.trim

/-- Modelled from the spec: §4.3 matching is set intersection on
canonicalized names; `matched_skills` keeps the required skills whose
canonical form appears among the resume's canonicalized skills. -/
def matchedSkillsOf (r : ResumeRecord) (j : JobRequirement) : Finset String :=
  j.required_skills.filter (fun s => canon s ∈ r.skills.image canon)

/-- Modelled from the spec: §3 `missing_skills = required_skills −
matched` (missing backend matcher). -/
def missingSkillsOf (r : ResumeRecord) (j : JobRequirement) : Finset String :=
  j.required_skills.filter (fun s => ¬ canon s ∈ r.skills.image canon)

/-- Modelled from the spec: the preferred skills matched by the resume,
used with half weight by §4.4's skill sub-score. -/
def preferredMatchedOf (r : ResumeRecord) (j : JobRequirement) : Finset String :=
  j.preferred_skills.filter (fun s => canon s ∈ r.skills.image canon)

/-- Modelled from the spec: §4.3 `match_percentage = 100 * |matched ∩
required| / |required|`, 100.0 when `required` is empty. -/
def match_percentage (r : ResumeRecord) (j : JobRequirement) : ℚ :=
  if j.required_skills = ∅ then 100
  else 100 * ((matchedSkillsOf r j ∩ j.required_skills).card : ℚ) / (j.required_skills.card : ℚ)

/-- Modelled from the spec: the denominator `required_count * 1.0 +
preferred_count * 0.5` of §4.4's skill sub-score. -/
def skillDenominator (j : JobRequirement) : ℚ :=
  (j.required_skills.card : ℚ) * 1 + (j.preferred_skills.card : ℚ) * (1/2)

/-- Modelled from the spec: §4.4 `skill_match = 100 *
(required_matched_count * 1.0 + preferred_matched_count * 0.5) /
(required_count * 1.0 + preferred_count * 0.5)`, 100.0 when the
denominator is 0. -/
def skill_match_score (r : ResumeRecord) (j : JobRequirement) : ℚ :=
  if skillDenominator j = 0 then 100
  else 100 * (((matchedSkillsOf r j).card : ℚ) * 1 + ((preferredMatchedOf r j).card : ℚ) * (1/2))
         / skillDenominator j

/-- Modelled from the spec: the resume's education level ordinal — the
highest level found among its education entries (§4.2 "keeping the
highest level found"). -/
def resumeEducationOrdinal (r : ResumeRecord) : ℕ :=
  (r.education_entries.map (fun e => e.level.ordinal)).foldr max 0

/-- Modelled from the spec: §4.4's education sub-score — 100 when the
resume's level reaches the job's (by enum ordinal) or the job requires
none, else the partial-credit curve `100 * resume_ordinal /
job_ordinal`. -/
def education_score (r : ResumeRecord) (j : JobRequirement) : ℚ :=
  let rl : ℚ := (resumeEducationOrdinal r : ℚ)
  let jl : ℚ := (j.education_level.ordinal : ℚ)
  if jl ≤ rl then 100 else 100 * rl / jl

/-- Modelled from the spec: §4.4's experience sub-score — `min(100, 100
* resume.total_experience_years / job.years_of_experience)` when
`job.years_of_experience > 0`, else 100 (the division is guarded). -/
def experience_score (r : ResumeRecord) (j : JobRequirement) : ℚ :=
  if 0 < j.years_of_experience then
    min 100 (100 * r.total_experience_years / j.years_of_experience)
  else 100

/-- Modelled from the spec: §4.3's keyword relevance — a job keyword is
found when it occurs as a case-insensitive substring of the resume's raw
text. -/
def keywordFound (r : ResumeRecord) (kw : String) : Prop :=
  kw.toLower.toList <:+: r.raw_text.toLower.toList

instance (r : ResumeRecord) (kw : String) : Decidable (keywordFound r kw) :=
  List.decidableInfix _ _

/-- Modelled from the spec: §4.3/§4.4 keyword sub-score — 100 times the
fraction of `job.keywords` found as substrings of the raw text; the spec
leaves the empty-keyword case unstated, the vacuous convention of
§4.3's `match_percentage` is adopted. -/
def keyword_match_score (r : ResumeRecord) (j : JobRequirement) : ℚ :=
  if j.keywords = ∅ then 100
  else 100 * ((j.keywords.filter (fun kw => keywordFound r kw)).card : ℚ) / (j.keywords.card : ℚ)

/-- Modelled from the spec: whether any contact information was found
(§4.4 format heuristic, "no contact info found: −20"). -/
def hasContact (r : ResumeRecord) : Bool :=
  r.contact_name.isSome || r.contact_email.isSome || r.contact_phone.isSome

/-- Modelled from the spec: §4.4's format sub-score — starts at 100,
fixed deductions for each missing structural element (no contact −20, no
skills −30, raw text shorter than 200 characters −25, no education
entries −15, no experience entries −15), floored at 0. -/
def format_score (r : ResumeRecord) : ℚ :=
  let d : ℚ :=
    (if hasContact r then 0 else 20)
    + (if r.skills = ∅ then 30 else 0)
    + (if r.raw_text.length < 200 then 25 else 0)
    + (if r.education_entries = [] then 15 else 0)
    + (if r.experience_entries = [] then 15 else 0)
  max 0 (100 - d)

/-- Modelled from the spec: the effective pass threshold —
`job.minimum_ats_score`, defaulting to 50.0 when unspecified (§4.4,
README). -/
def effectiveThreshold (j : JobRequirement) : ℚ :=
  j.minimum_ats_score.getD 50

/-- Modelled from the spec: §4.4's composite `ats_score = 0.40*skill +
0.20*experience + 0.10*education + 0.25*keyword + 0.05*format`. -/
def ats_score (r : ResumeRecord) (j : JobRequirement) : ℚ :=
  (40/100) * skill_match_score r j
  + (20/100) * experience_score r j
  + (10/100) * education_score r j
  + (25/100) * keyword_match_score r j
  + (5/100) * format_score r

/-- Modelled from the spec: §4.4's evaluation — one `EvaluationResult`
per (resume, job) pair, `passed = ats_score >= job.minimum_ats_score`
(missing backend `ats_engine.py`). -/
def evaluate (r : ResumeRecord) (j : JobRequirement) : EvaluationResult :=
  { ats_score := ats_score r j
  , skill_match := skill_match_score r j
  , education_score := education_score r j
  , experience_score := experience_score r j
  , keyword_match_score := keyword_match_score r j
  , format_score := format_score r
  , passed := decide (effectiveThreshold j ≤ ats_score r j)
  , matched_skills := matchedSkillsOf r j
  , missing_skills := missingSkillsOf r j }

/-- Modelled from the spec: §7's error taxonomy (missing backend
sources). -/
inductive EngineError where
  | UnsupportedFormatError
  | ExtractionError
  | InvalidStateError
deriving DecidableEq, Repr

/-- Modelled from the spec: §3's `FeedbackReport` (missing backend
`models.py`). -/
structure FeedbackReport where
  rejection_reasons : List String
  missing_critical_skills : List String
  resume_strengths : List String
  resume_weaknesses : List String
  improvement_recommendations : List String
  mistake_highlights : List String
deriving DecidableEq

/-- Modelled from the spec: §4.5's per-sub-score weakness/recommendation
pairs — recommendations map 1:1 to weaknesses via a deterministic
lookup. The spec fixes the skill threshold (60) and keyword threshold
(50) by example; the remaining thresholds are modelled as 50. -/
def weaknessPairs (res : EvaluationResult) : List (String × String) :=
  (if res.skill_match < 60 then
    [("Limited skills listed - expand your skills section",
      "Add these required skills to your resume: "
        ++ String.intercalate ", " (res.missing_skills.sort (fun a b => a ≤ b)))] else [])
  ++ (if res.experience_score < 50 then
    [("Experience section needs more detail",
      "Describe your experience with durations and measurable outcomes")] else [])
  ++ (if res.education_score < 50 then
    [("Education section does not meet the requirement",
      "List your highest completed degree explicitly")] else [])
  ++ (if res.keyword_match_score < 50 then
    [("Low keyword relevance to the job description",
      "Review the job description and incorporate relevant keywords")] else [])
  ++ (if res.format_score < 50 then
    [("Resume is missing structural elements",
      "Add contact information, skills, education and experience sections")] else [])

/-- Modelled from the spec: §4.5's rejection reasons — one entry per
sub-score below its threshold, in the fixed priority order skills,
experience, education, keywords, format. -/
def rejectionReasons (res : EvaluationResult) : List String :=
  (if res.skill_match < 60 then
    ["Insufficient skill match (" ++ toString res.skill_match ++ "%). Missing "
      ++ toString res.missing_skills.card ++ " required skills."] else [])
  ++ (if res.experience_score < 50 then
    ["Insufficient years of experience (" ++ toString res.experience_score ++ "%)."] else [])
  ++ (if res.education_score < 50 then
    ["Education level below requirement (" ++ toString res.education_score ++ "%)."] else [])
  ++ (if res.keyword_match_score < 50 then
    ["Low keyword relevance (" ++ toString res.keyword_match_score ++ "%)."] else [])
  ++ (if res.format_score < 50 then
    ["Resume format is incomplete (" ++ toString res.format_score ++ "%)."] else [])

/-- Modelled from the spec: §4.5's strengths — the inverse direction of
the weakness thresholds. -/
def resumeStrengths (res : EvaluationResult) : List String :=
  (if 60 ≤ res.skill_match then
    ["Good skill alignment: " ++ toString res.matched_skills.card
      ++ " matching skills found"] else [])
  ++ (if 50 ≤ res.experience_score then ["Relevant experience level"] else [])
  ++ (if 50 ≤ res.education_score then ["Education requirement satisfied"] else [])
  ++ (if 50 ≤ res.keyword_match_score then ["Good keyword coverage"] else [])
  ++ (if 50 ≤ res.format_score then ["Well-structured resume"] else [])

/-- Modelled from the spec: §4.5's mistake highlights — the most severe
(lowest) sub-scores surfaced as up to three imperative bullets. -/
def mistakeHighlights (res : EvaluationResult) : List String :=
  let scored : List (ℚ × String) :=
    [ (res.skill_match, "Critical missing skills: "
        ++ String.intercalate ", " (res.missing_skills.sort (fun a b => a ≤ b)))
    , (res.experience_score, "Experience section needs more detail")
    , (res.education_score, "State your education level clearly")
    , (res.keyword_match_score, "Mirror the language of the job description")
    , (res.format_score, "Complete the missing resume sections") ]
  ((scored.mergeSort (fun a b => a.1 ≤ b.1)).take 3).map Prod.snd

/-- Modelled from the spec: §4.5's feedback generator (missing backend
`feedback_generator.py`) — input an `EvaluationResult` with `passed ==
false`; calling it on a passing result is a precondition violation that
fails with `InvalidStateError` rather than fabricating feedback. The
non-empty-weakness guard of §4.5 emits a generic weakness when no
threshold weakness qualifies. -/
def generateFeedback (res : EvaluationResult) (j : JobRequirement) :
    Except EngineError FeedbackReport :=
  if res.passed then .error .InvalidStateError
  else
    let pairs := weaknessPairs res
    let pairs :=
      if pairs = [] ∧ res.ats_score < effectiveThreshold j then
        [("Overall score below the required threshold",
          "Strengthen the weakest sections of your resume")]
      else pairs
    .ok
      { rejection_reasons := rejectionReasons res
      , missing_critical_skills := res.missing_skills.sort (fun a b => a ≤ b)
      , resume_strengths := resumeStrengths res
      , resume_weaknesses := pairs.map Prod.fst
      , improvement_recommendations := pairs.map Prod.snd
      , mistake_highlights := mistakeHighlights res }

/-- Modelled from the spec: §6's single-evaluation response shape `{
evaluation, feedback: FeedbackReport | null }` — feedback is generated
only for failing evaluations (missing backend `main.py`). -/
def evaluateWithFeedback (r : ResumeRecord) (j : JobRequirement) :
    EvaluationResult × Option FeedbackReport :=
  let e := evaluate r j
  if e.passed then (e, Option.none)
  else
    (e, match generateFeedback e j with
        | .ok f => Option.some f
        | .error _ => Option.none)

/-- Modelled from the spec: §4.1's document formats. -/
inductive DocFormat where
  | pdf
  | docx
  | txt
deriving DecidableEq, Repr

/-- Modelled from the spec: §4.1's extractor input — a document with a
declared-or-sniffed format (absent when the format cannot be
determined) and the text its format parser yields (the byte-level
decoding itself is the external parser library's, out of scope). -/
structure Document where
  format : Option DocFormat
  content : String
deriving DecidableEq

/-- Modelled from the spec: §4.1's whitespace normalization, collapsing
whitespace runs (the paragraph-break refinement is not needed by any
claim in scope). -/
def normalizeText (t : String) : String :=
  String.intercalate " " ((t.split Char.isWhitespace).filter (fun w => w ≠ ""))

/-- Modelled from the spec: §4.1's text extractor (missing backend
`resume_parser.py`) — `UnsupportedFormatError` when the format cannot
be determined, `ExtractionError` when the parse yields fewer than the
minimum 20 usable characters. -/
def extractText (d : Document) : Except EngineError String :=
  match d.format with
  | Option.none => .error .UnsupportedFormatError
  | Option.some _ =>
    let t := normalizeText d.content
    if t.length < 20 then .error .ExtractionError else .ok t

/-- Modelled from the spec: §4.2's worst-case structurer output — a
`ResumeRecord` with empty collections and `raw_text` set to the input
(the structurer never fails). -/
def fallbackRecord (t : String) : ResumeRecord :=
  { raw_text := t
  , contact_name := Option.none
  , contact_email := Option.none
  , contact_phone := Option.none
  , skills := ∅
  , education_entries := []
  , experience_entries := []
  , certifications := ∅
  , total_experience_years := 0 }

/-- Modelled from the spec: §6's `resume_source` — raw text or a
document (the `resume_id` variant resolves through the external
persistence layer, out of scope per §6). -/
inductive ResumeSource where
  | raw_text : String → ResumeSource
  | document : Document → ResumeSource
deriving DecidableEq

/-- Modelled from the spec: §6's single-evaluation request shape. -/
structure ScoreRequest where
  source : ResumeSource
  job_requirement : JobRequirement
deriving DecidableEq

/-- Modelled from the spec: §6's per-item batch outcome `{ evaluation |
error }`. -/
inductive ItemResult where
  | success : EvaluationResult → ItemResult
  | failure : EngineError → ItemResult
deriving DecidableEq

/-- Modelled from the spec: one batch item's evaluation — extraction
(when the source is a document), structuring, then scoring; the
structurer is passed in per §9's dependency-injection note. -/
def scoreOne (structurer : String → ResumeRecord) (q : ScoreRequest) :
    Except EngineError EvaluationResult :=
  match q.source with
  | .raw_text t => .ok (evaluate (structurer t) q.job_requirement)
  | .document d => (extractText d).map (fun t => evaluate (structurer t) q.job_requirement)

/-- Modelled from the spec: an item's failure is isolated into a
per-item error marker instead of raising through the batch (§5). -/
def itemOutcome (structurer : String → ResumeRecord) (q : ScoreRequest) : ItemResult :=
  match scoreOne structurer q with
  | .ok e => .success e
  | .error err => .failure err

/-- Modelled from the spec: §6's batch response shape (declared as
`BatchScoreResponse` in `types/api.ts`). -/
structure BatchScoreResponse where
  results : List ItemResult
  total : ℕ
deriving DecidableEq

/-- Modelled from the spec: §5's batch-scoring entry point — simply
independent repeated invocation over the ordered request sequence
(missing backend `main.py`). -/
def batchScore (structurer : String → ResumeRecord) (reqs : List ScoreRequest) :
    BatchScoreResponse :=
  { results := reqs.map (itemOutcome structurer)
  , total := reqs.length }

end CampusConnect

namespace ClientApi

/-- The JSON body of an HTTP response, as far as `apiRequest` in
`client/lib/api.ts` inspects it: only the optional `detail` and
`message` string fields take part in error-message selection. -/
structure ResponseBody where
  detail : Option String
  message : Option String
deriving DecidableEq

/-- An HTTP response as observed by `apiRequest`: its status code and
its body; `body = Option.none` models a body that is not valid JSON, on
which `response.json()` (line 97 of `client/lib/api.ts`) throws. -/
structure HttpResponse where
  status : ℕ
  body : Option ResponseBody
deriving DecidableEq

/-- `fetch`'s `Response.ok`: status in the range 200–299. -/
def responseOk (status : ℕ) : Bool :=
  decide (200 ≤ status) && decide (status ≤ 299)

/-- The `ApiException` of `client/lib/api.ts` lines 43–52, restricted
to the `status` and `message` fields (the optional `data` payload
carries no information the claims inspect). -/
structure ApiException where
  status : ℕ
  message : String
deriving DecidableEq

/-- Outcome of the `apiRequest` promise: it either resolves (with the
parsed body, or with null — modelled `Option.none` — for a 204) or
rejects with an `ApiException`. -/
inductive ApiResult where
  | resolved : Option ResponseBody → ApiResult
  | raised : ApiException → ApiResult
deriving DecidableEq

/-- Stands for the JavaScript runtime's `SyntaxError` message raised by
`response.json()` on a non-JSON body; only the accompanying status 0 is
determined by the repository's code. -/
def jsonParseErrorMessage : String := "Unexpected token in JSON"

/-- Line 100 of `client/lib/api.ts`:
`data.detail || data.message || 'HTTP ' + response.status` with
JavaScript truthiness — an absent or empty-string field falls through
to the next alternative. -/
def jsOrElse (a : Option String) (b : String) : String :=
  match a with
  | Option.some s => if s = "" then b else s
  | Option.none => b

/-- The error message `apiRequest` attaches to a non-ok response. -/
def errorMessage (b : ResponseBody) (status : ℕ) : String :=
  jsOrElse b.detail (jsOrElse b.message ("HTTP " ++ toString status))

/-- Embedded from `apiRequest`, `client/lib/api.ts` lines 86–112: a 204
returns null before the body is read; otherwise the body is parsed
(throwing on non-JSON, which the catch block rewraps as
`ApiException(0, message)`); a non-ok status throws
`ApiException(status, detail || message || 'HTTP status')`; an ok
status resolves with the parsed body. -/
def apiRequest (resp : HttpResponse) : ApiResult :=
  if resp.status = 204 then .resolved Option.none
  else
    match resp.body with
    | Option.none => .raised ⟨0, jsonParseErrorMessage⟩
    | Option.some data =>
      if responseOk resp.status then .resolved (Option.some data)
      else .raised ⟨resp.status, errorMessage data resp.status⟩

end ClientApi

namespace ProfileEditor

/-- A selected file as `handleResumeUpload` in
`pages/EditProfilePage.jsx` inspects it: `name`, MIME `type`, and
`size` in bytes. -/
structure UploadFile where
  name : String
  type : String
  size : ℕ
deriving DecidableEq

/-- The `formData.resume` object built on a successful upload
(`EditProfilePage.jsx` lines 55–62). -/
structure ResumeInfo where
  name : String
  url : String
  uploadDate : String
deriving DecidableEq

/-- The slice of the editor's state that `handleResumeUpload` touches:
`formData.resume`, `errors.resume`, and the `resumeFile` state. -/
structure FormState where
  resume : Option ResumeInfo
  resumeError : String
  resumeFile : Option UploadFile
deriving DecidableEq

/-- Embedded from `handleResumeUpload`, `EditProfilePage.jsx` lines
34–69. `objectUrl` stands for the value of `URL.createObjectURL(file)`
and `now` for `new Date().toISOString()`, both environment-supplied.
With no selected file nothing happens; a non-PDF MIME type or a size
over 5MB records an error and returns without touching the form's
resume; otherwise the file is stored and the error cleared. -/
def handleResumeUpload (objectUrl now : String) (selected : Option UploadFile)
    (s : FormState) : FormState :=
  match selected with
  | Option.none => s
  | Option.some f =>
    if f.type ≠ "application/pdf" then
      { s with resumeError := "Please upload only PDF files" }
    else if f.size > 5 * 1024 * 1024 then
      { s with resumeError := "File size should be less than 5MB" }
    else
      { s with resumeFile := Option.some f
             , resume := Option.some ⟨f.name, objectUrl, now⟩
             , resumeError := "" }

end ProfileEditor

namespace CampusConnect

/-- A score lies in the closed interval [0, 100]. -/
def inRange (x : ℚ) : Prop := 0 ≤ x ∧ x ≤ 100

/-- A job requirement with every collection empty and no explicit
threshold. -/
def jobEmpty : JobRequirement :=
  { title := "Software Engineer"
  , required_skills := ∅
  , preferred_skills := ∅
  , education_level := .none
  , years_of_experience := 0
  , keywords := ∅
  , minimum_ats_score := Option.none }

/-- A job requirement with no required skills but one preferred
skill. -/
def jobPreferredOnly : JobRequirement :=
  { title := "Software Engineer"
  , required_skills := ∅
  , preferred_skills := {"docker"}
  , education_level := .none
  , years_of_experience := 0
  , keywords := ∅
  , minimum_ats_score := Option.none }

/-- A small concrete resume. -/
def resumeSample : ResumeRecord :=
  { raw_text := "python and sql developer"
  , contact_name := Option.some "John Doe"
  , contact_email := Option.some "john@example.com"
  , contact_phone := Option.none
  , skills := {"python", "sql"}
  , education_entries := [⟨"B.Tech", "XYZ University", .bachelor⟩]
  , experience_entries := [⟨"Software Engineer", "ABC Corp", 6⟩]
  , certifications := ∅
  , total_experience_years := 6 }

/-- A small concrete job requirement whose experience ratio exceeds
100% for `resumeSample`. -/
def jobSample : JobRequirement :=
  { title := "Software Engineer"
  , required_skills := {"python", "fastapi", "sql"}
  , preferred_skills := ∅
  , education_level := .bachelor
  , years_of_experience := 2
  , keywords := {"sql"}
  , minimum_ats_score := Option.some 60 }

/-- C1: every evaluation's composite `ats_score` is the weighted sum
`0.40*skill_match + 0.20*experience + 0.10*education +
0.25*keyword_match + 0.05*format` of its own sub-scores, and the five
weights sum to exactly 1. -/
theorem ats_score_is_weighted_sum (r : ResumeRecord) (j : JobRequirement) :
    (evaluate r j).ats_score
      = (40/100) * (evaluate r j).skill_match
        + (20/100) * (evaluate r j).experience_score
        + (10/100) * (evaluate r j).education_score
        + (25/100) * (evaluate r j).keyword_match_score
        + (5/100) * (evaluate r j).format_score
    ∧ ((40:ℚ)/100 + 20/100 + 10/100 + 25/100 + 5/100 = 1) :=
  ⟨rfl, by norm_num⟩

/-- C2: for every evaluation, `matched_skills` and `missing_skills`
partition the job's required skills — their union is exactly
`required_skills`, they are disjoint, and `missing_skills` contains no
non-required skill. -/
theorem matched_missing_partition (r : ResumeRecord) (j : JobRequirement) :
    (evaluate r j).matched_skills ∪ (evaluate r j).missing_skills = j.required_skills
    ∧ (evaluate r j).matched_skills ∩ (evaluate r j).missing_skills = ∅
    ∧ (evaluate r j).missing_skills ⊆ j.required_skills := by
  refine ⟨?_, ?_, ?_⟩
  · ext a
    simp only [evaluate, matchedSkillsOf, missingSkillsOf, Finset.mem_union, Finset.mem_filter]
    tauto
  · ext a
    simp only [evaluate, matchedSkillsOf, missingSkillsOf, Finset.mem_inter, Finset.mem_filter,
      Finset.not_mem_empty, iff_false]
    tauto
  · exact Finset.filter_subset _ _

/-- C3 counterexample: with `required_skills = ∅` but a preferred skill
the resume lacks, the skill sub-score is 0, not 100 — the denominator
`required*1.0 + preferred*0.5` is ½, so the "100 regardless of resume
content" headline fails for the skill sub-score. -/
theorem skill_match_counterexample :
    jobPreferredOnly.required_skills = ∅
    ∧ skill_match_score (fallbackRecord "") jobPreferredOnly = 0
    ∧ skill_match_score (fallbackRecord "") jobPreferredOnly ≠ 100 := by
  have hd : skillDenominator jobPreferredOnly = 1/2 := by
    simp [skillDenominator, jobPreferredOnly]
  have hm : matchedSkillsOf (fallbackRecord "") jobPreferredOnly = ∅ := by
    simp [matchedSkillsOf, jobPreferredOnly]
  have hp : preferredMatchedOf (fallbackRecord "") jobPreferredOnly = ∅ := by
    simp [preferredMatchedOf, fallbackRecord]
  have h0 : skill_match_score (fallbackRecord "") jobPreferredOnly = 0 := by
    unfold skill_match_score
    rw [hd, hm, hp]
    norm_num
  exact ⟨rfl, h0, by rw [h0]; norm_num⟩

/-- C3 (amended): the matcher's `match_percentage` is 100 whenever
`required_skills` is empty, and the engine's skill sub-score is 100
whenever its denominator `required_count*1.0 + preferred_count*0.5` is
0 (that is, when both skill sets are empty). -/
theorem skill_match_vacuous (r : ResumeRecord) (j : JobRequirement) :
    (j.required_skills = ∅ → match_percentage r j = 100)
    ∧ (skillDenominator j = 0 → skill_match_score r j = 100) := by
  constructor
  · intro h
    simp [match_percentage, h]
  · intro h
    simp [skill_match_score, h]

/-- C3 witness: both vacuous conventions evaluated at the empty job. -/
theorem skill_match_vacuous_witness :
    match_percentage (fallbackRecord "") jobEmpty = 100
    ∧ skill_match_score (fallbackRecord "") jobEmpty = 100 :=
  ⟨(skill_match_vacuous (fallbackRecord "") jobEmpty).1 rfl,
   (skill_match_vacuous (fallbackRecord "") jobEmpty).2
     (by simp [skillDenominator, jobEmpty])⟩

lemma ratio_inRange {a b : ℚ} (ha : 0 ≤ a) (hab : a ≤ b) (hb : 0 < b) :
    inRange (100 * a / b) := by
  constructor
  · positivity
  · rw [div_le_iff₀ hb]
    nlinarith

lemma skill_match_inRange (r : ResumeRecord) (j : JobRequirement) :
    inRange (skill_match_score r j) := by
  unfold skill_match_score
  split
  · exact ⟨by norm_num, le_refl _⟩
  · rename_i hne
    have hden : 0 ≤ skillDenominator j := by
      unfold skillDenominator
      positivity
    have hm : (matchedSkillsOf r j).card ≤ j.required_skills.card :=
      Finset.card_filter_le _ _
    have hp : (preferredMatchedOf r j).card ≤ j.preferred_skills.card :=
      Finset.card_filter_le _ _
    refine ratio_inRange (by positivity) ?_ (lt_of_le_of_ne hden (Ne.symm hne))
    unfold skillDenominator
    have hm' : ((matchedSkillsOf r j).card : ℚ) ≤ (j.required_skills.card : ℚ) := by
      exact_mod_cast hm
    have hp' : ((preferredMatchedOf r j).card : ℚ) ≤ (j.preferred_skills.card : ℚ) := by
      exact_mod_cast hp
    nlinarith

lemma education_inRange (r : ResumeRecord) (j : JobRequirement) :
    inRange (education_score r j) := by
  unfold education_score
  dsimp only
  split
  · exact ⟨by norm_num, le_refl _⟩
  · rename_i hlt
    push_neg at hlt
    have h0 : (0:ℚ) ≤ (resumeEducationOrdinal r : ℚ) := by positivity
    exact ratio_inRange h0 (le_of_lt hlt) (lt_of_le_of_lt h0 hlt)

lemma experience_inRange (r : ResumeRecord) (j : JobRequirement)
    (ht : 0 ≤ r.total_experience_years) : inRange (experience_score r j) := by
  unfold experience_score
  split
  · rename_i hy
    constructor
    · exact le_min (by norm_num) (by positivity)
    · exact min_le_left _ _
  · exact ⟨by norm_num, le_refl _⟩

lemma keyword_inRange (r : ResumeRecord) (j : JobRequirement) :
    inRange (keyword_match_score r j) := by
  unfold keyword_match_score
  split
  · exact ⟨by norm_num, le_refl _⟩
  · rename_i hne
    have hcard : 0 < j.keywords.card := Finset.card_pos.mpr (Finset.nonempty_iff_ne_empty.mpr hne)
    have hf : (j.keywords.filter (fun kw => keywordFound r kw)).card ≤ j.keywords.card :=
      Finset.card_filter_le _ _
    refine ratio_inRange (by positivity) (by exact_mod_cast hf) (by exact_mod_cast hcard)

lemma format_inRange (r : ResumeRecord) : inRange (format_score r) := by
  unfold format_score
  constructor
  · exact le_max_left _ _
  · apply max_le (by norm_num)
    have : (0:ℚ) ≤ (if hasContact r then 0 else 20)
        + (if r.skills = ∅ then 30 else 0)
        + (if r.raw_text.length < 200 then 25 else 0)
        + (if r.education_entries = [] then 15 else 0)
        + (if r.experience_entries = [] then 15 else 0) := by
      split_ifs <;> norm_num
    linarith

/-- C4: for every valid evaluation (non-negative derived experience
years), the composite `ats_score` and all five sub-scores lie in
[0, 100] — even when the intermediate experience ratio would exceed
100. -/
theorem scores_inRange (r : ResumeRecord) (j : JobRequirement)
    (ht : 0 ≤ r.total_experience_years) :
    inRange (evaluate r j).ats_score
    ∧ inRange (evaluate r j).skill_match
    ∧ inRange (evaluate r j).education_score
    ∧ inRange (evaluate r j).experience_score
    ∧ inRange (evaluate r j).keyword_match_score
    ∧ inRange (evaluate r j).format_score := by
  have hs := skill_match_inRange r j
  have he := education_inRange r j
  have hx := experience_inRange r j ht
  have hk := keyword_inRange r j
  have hf := format_inRange r
  refine ⟨?_, hs, he, hx, hk, hf⟩
  show inRange (ats_score r j)
  unfold ats_score
  obtain ⟨hs0, hs1⟩ := hs
  obtain ⟨he0, he1⟩ := he
  obtain ⟨hx0, hx1⟩ := hx
  obtain ⟨hk0, hk1⟩ := hk
  obtain ⟨hf0, hf1⟩ := hf
  constructor <;> [linarith; linarith]

/-- C4 witness: the bounds evaluated at a resume whose raw experience
ratio is 300%. -/
theorem scores_inRange_witness :
    0 ≤ resumeSample.total_experience_years
    ∧ (inRange (evaluate resumeSample jobSample).ats_score
        ∧ inRange (evaluate resumeSample jobSample).skill_match
        ∧ inRange (evaluate resumeSample jobSample).education_score
        ∧ inRange (evaluate resumeSample jobSample).experience_score
        ∧ inRange (evaluate resumeSample jobSample).keyword_match_score
        ∧ inRange (evaluate resumeSample jobSample).format_score) :=
  ⟨by norm_num [resumeSample],
   scores_inRange resumeSample jobSample (by norm_num [resumeSample])⟩

/-- C5: for every evaluation, `passed` holds exactly when `ats_score`
reaches the job's threshold, and the threshold in force is 50 whenever
`minimum_ats_score` is unspecified. -/
theorem passed_iff_threshold :
    (∀ (r : ResumeRecord) (j : JobRequirement),
      (evaluate r j).passed = true ↔ effectiveThreshold j ≤ (evaluate r j).ats_score)
    ∧ (∀ j : JobRequirement, j.minimum_ats_score = Option.none → effectiveThreshold j = 50) := by
  constructor
  · intro r j
    simp [evaluate]
  · intro j h
    simp [effectiveThreshold, h]

/-- C5 witness: the pass criterion and the default threshold at the
empty job, which specifies no minimum score. -/
theorem passed_iff_threshold_witness :
    ((evaluate (fallbackRecord "") jobEmpty).passed = true
      ↔ effectiveThreshold jobEmpty ≤ (evaluate (fallbackRecord "") jobEmpty).ats_score)
    ∧ effectiveThreshold jobEmpty = 50 :=
  ⟨passed_iff_threshold.1 (fallbackRecord "") jobEmpty,
   passed_iff_threshold.2 jobEmpty rfl⟩

/-- C6: the experience sub-score is `min(100, 100 *
total_experience_years / years_of_experience)` when the job requires a
positive number of years, and 100 when it requires zero — the division
is never performed with a zero divisor. -/
theorem experience_score_guarded (r : ResumeRecord) (j : JobRequirement) :
    (0 < j.years_of_experience →
      (evaluate r j).experience_score
        = min 100 (100 * r.total_experience_years / j.years_of_experience))
    ∧ (j.years_of_experience = 0 → (evaluate r j).experience_score = 100) := by
  constructor
  · intro h
    show experience_score r j = _
    simp [experience_score, h]
  · intro h
    show experience_score r j = 100
    simp [experience_score, h]

/-- C6 witness: both branches evaluated — the sample job requires 2
years, the empty job 0 years. -/
theorem experience_score_guarded_witness :
    (evaluate resumeSample jobSample).experience_score
      = min 100 (100 * resumeSample.total_experience_years / jobSample.years_of_experience)
    ∧ (evaluate (fallbackRecord "") jobEmpty).experience_score = 100 :=
  ⟨(experience_score_guarded resumeSample jobSample).1 (by norm_num [jobSample]),
   (experience_score_guarded (fallbackRecord "") jobEmpty).2 rfl⟩

/-- A passing evaluation result, mirroring the README's passing
example. -/
def passingResult : EvaluationResult :=
  { ats_score := 151/2
  , skill_match := 85
  , education_score := 100
  , experience_score := 80
  , keyword_match_score := 70
  , format_score := 95
  , passed := true
  , matched_skills := {"Python", "FastAPI", "SQL"}
  , missing_skills := ∅ }

/-- C7: feedback exists only for failing evaluations — a passing
evaluation's response carries null feedback, and invoking the feedback
generator on a result with `passed == true` fails with
`InvalidStateError` instead of fabricating a report. -/
theorem feedback_only_when_failed :
    (∀ (r : ResumeRecord) (j : JobRequirement),
      (evaluate r j).passed = true → (evaluateWithFeedback r j).2 = Option.none)
    ∧ (∀ (res : EvaluationResult) (j : JobRequirement),
      res.passed = true → generateFeedback res j = .error .InvalidStateError) := by
  constructor
  · intro r j h
    simp [evaluateWithFeedback, h]
  · intro res j h
    simp [generateFeedback, h]

/-- C7 witness: the empty resume passes the empty job (score 95 against
the default threshold 50), its feedback is null, and the generator
rejects the README's passing result with `InvalidStateError`. -/
theorem feedback_only_when_failed_witness :
    (evaluateWithFeedback (fallbackRecord "") jobEmpty).2 = Option.none
    ∧ generateFeedback passingResult jobEmpty = .error .InvalidStateError := by
  constructor
  · apply feedback_only_when_failed.1 (fallbackRecord "") jobEmpty
    have hats : ats_score (fallbackRecord "") jobEmpty = 95 := by
      unfold ats_score skill_match_score keyword_match_score experience_score
        education_score format_score skillDenominator
      norm_num [jobEmpty, fallbackRecord, hasContact, resumeEducationOrdinal,
        EducationLevel.ordinal]
    show decide (effectiveThreshold jobEmpty ≤ ats_score (fallbackRecord "") jobEmpty) = true
    rw [hats]
    norm_num [effectiveThreshold, jobEmpty]
  · exact feedback_only_when_failed.2 passingResult jobEmpty rfl

/-- A batch request whose document has no determinable format, so its
extraction fails. -/
def badDocRequest : ScoreRequest :=
  { source := .document ⟨Option.none, "some resume content"⟩
  , job_requirement := jobEmpty }

/-- A batch request scored from raw text, which always succeeds. -/
def rawRequest : ScoreRequest :=
  { source := .raw_text "python developer with sql experience"
  , job_requirement := jobEmpty }

/-- C8: batch scoring returns one result per request, positionally
aligned — the reported total and result count equal the request count,
every position holds exactly its own request's evaluation-or-error
outcome, and a position's result is unchanged under any change to the
other requests (one item's failure cannot abort or alter its
siblings). -/
theorem batch_positionally_aligned (st : String → ResumeRecord)
    (reqs : List ScoreRequest) (i : ℕ) :
    (batchScore st reqs).total = reqs.length
    ∧ (batchScore st reqs).results.length = reqs.length
    ∧ (batchScore st reqs).results[i]? = (reqs[i]?).map (itemOutcome st)
    ∧ (∀ reqs' : List ScoreRequest, reqs'[i]? = reqs[i]? →
        (batchScore st reqs').results[i]? = (batchScore st reqs).results[i]?) := by
  refine ⟨rfl, by simp [batchScore], by simp [batchScore], ?_⟩
  intro reqs' h
  simp [batchScore, h]

/-- C8 witness: position 1 of a batch whose position 0 fails
(undeterminable format) equals position 1 of the batch where position 0
succeeds — the sibling failure does not alter it. -/
theorem batch_positionally_aligned_witness :
    (batchScore fallbackRecord [rawRequest, rawRequest]).results[1]?
      = (batchScore fallbackRecord [badDocRequest, rawRequest]).results[1]? :=
  (batch_positionally_aligned fallbackRecord [badDocRequest, rawRequest] 1).2.2.2
    [rawRequest, rawRequest] rfl

end CampusConnect


namespace ClientApi

/-- A 404 response whose JSON body has a present but empty `detail`
field. -/
def respEmptyDetail : HttpResponse :=
  { status := 404, body := Option.some ⟨Option.some "", Option.none⟩ }

/-- A 500 response whose body is not valid JSON. -/
def respNoJson : HttpResponse :=
  { status := 500, body := Option.none }

/-- C9 counterexample: `apiRequest` follows JavaScript truthiness, not
field presence — a present-but-empty `detail` is skipped, so the
exception message for `respEmptyDetail` is "HTTP 404" rather than the
detail field's value; and a non-ok response whose body is not JSON
raises with status 0, not the HTTP status 500. -/
theorem apiRequest_counterexample :
    respEmptyDetail.body = Option.some ⟨Option.some "", Option.none⟩
    ∧ apiRequest respEmptyDetail = .raised ⟨404, "HTTP 404"⟩
    ∧ apiRequest respEmptyDetail ≠ .raised ⟨404, ""⟩
    ∧ respNoJson.status = 500
    ∧ apiRequest respNoJson = .raised ⟨0, jsonParseErrorMessage⟩
    ∧ apiRequest respNoJson ≠ .raised ⟨500, jsonParseErrorMessage⟩ := by
  refine ⟨rfl, ?_, ?_, rfl, rfl, ?_⟩ <;> decide

/-- C9 (amended): a 204 resolves to null; a non-ok, non-204 response
with a JSON body raises an `ApiException` carrying the HTTP status and
the body's `detail` field when present and non-empty, else its
`message` field when present and non-empty, else "HTTP <status>"; a
non-ok, non-204 response with a non-JSON body raises with status 0; and
`apiRequest` never resolves for a non-ok, non-204 response. -/
theorem apiRequest_behaviour (resp : HttpResponse) :
    (resp.status = 204 → apiRequest resp = .resolved Option.none)
    ∧ (∀ b, resp.status ≠ 204 → resp.body = Option.some b → responseOk resp.status = false →
        apiRequest resp = .raised ⟨resp.status, errorMessage b resp.status⟩)
    ∧ (resp.status ≠ 204 → resp.body = Option.none →
        apiRequest resp = .raised ⟨0, jsonParseErrorMessage⟩)
    ∧ (resp.status ≠ 204 → responseOk resp.status = false →
        ∀ v, apiRequest resp ≠ .resolved v) := by
  refine ⟨?_, ?_, ?_, ?_⟩
  · intro h
    simp [apiRequest, h]
  · intro b h204 hb hok
    simp [apiRequest, h204, hb, hok]
  · intro h204 hb
    simp [apiRequest, h204, hb]
  · intro h204 hok v
    unfold apiRequest
    rw [if_neg h204]
    match hb : resp.body with
    | Option.none => simp
    | Option.some data => simp [hok]

/-- A 404 response with a conventional non-empty `detail` field. -/
def respDetail : HttpResponse :=
  { status := 404, body := Option.some ⟨Option.some "Not found", Option.none⟩ }

/-- A 204 No Content response. -/
def resp204 : HttpResponse := { status := 204, body := Option.none }

/-- C9 witness: the amended behaviour evaluated at a 204 response, at a
404 with a detail message, and at a 500 with a non-JSON body. -/
theorem apiRequest_behaviour_witness :
    apiRequest resp204 = .resolved Option.none
    ∧ apiRequest respDetail
        = .raised ⟨respDetail.status, errorMessage ⟨Option.some "Not found", Option.none⟩ respDetail.status⟩
    ∧ apiRequest respNoJson = .raised ⟨0, jsonParseErrorMessage⟩
    ∧ apiRequest respDetail ≠ .resolved (Option.some ⟨Option.some "Not found", Option.none⟩) :=
  ⟨(apiRequest_behaviour resp204).1 rfl,
   (apiRequest_behaviour respDetail).2.1 ⟨Option.some "Not found", Option.none⟩
     (by decide) rfl (by decide),
   (apiRequest_behaviour respNoJson).2.2.1 (by decide) rfl,
   (apiRequest_behaviour respDetail).2.2.2 (by decide) (by decide) _⟩

end ClientApi

namespace ProfileEditor

/-- C10: a selected file reaches the form's resume field only when its
MIME type is exactly "application/pdf" and its size is at most
5*1024*1024 bytes; a failed check records the matching error message
and leaves the resume unchanged; a passing file is stored with its
name, object URL and upload date, clearing the error; and with no
selected file the state is untouched. -/
theorem resume_upload_guarded (objectUrl now : String) (f : UploadFile) (s : FormState) :
    (f.type ≠ "application/pdf" →
      (handleResumeUpload objectUrl now (Option.some f) s).resume = s.resume
      ∧ (handleResumeUpload objectUrl now (Option.some f) s).resumeError
          = "Please upload only PDF files")
    ∧ (f.type = "application/pdf" → 5 * 1024 * 1024 < f.size →
      (handleResumeUpload objectUrl now (Option.some f) s).resume = s.resume
      ∧ (handleResumeUpload objectUrl now (Option.some f) s).resumeError
          = "File size should be less than 5MB")
    ∧ (f.type = "application/pdf" → f.size ≤ 5 * 1024 * 1024 →
      (handleResumeUpload objectUrl now (Option.some f) s).resume
          = Option.some ⟨f.name, objectUrl, now⟩
      ∧ (handleResumeUpload objectUrl now (Option.some f) s).resumeError = "")
    ∧ ((handleResumeUpload objectUrl now (Option.some f) s).resume ≠ s.resume →
      f.type = "application/pdf" ∧ f.size ≤ 5 * 1024 * 1024)
    ∧ (∀ s' : FormState, handleResumeUpload objectUrl now Option.none s' = s') := by
  refine ⟨?_, ?_, ?_, ?_, fun s' => rfl⟩
  · intro h
    simp [handleResumeUpload, h]
  · intro ht hs
    simp [handleResumeUpload, ht, hs]
  · intro ht hs
    simp [handleResumeUpload, ht, Nat.not_lt.mpr hs]
  · intro hch
    unfold handleResumeUpload at hch
    by_cases ht : f.type = "application/pdf"
    · by_cases hs : f.size ≤ 5 * 1024 * 1024
      · exact ⟨ht, hs⟩
      · exfalso
        apply hch
        simp [ht, Nat.lt_of_not_le hs]
    · exfalso
      apply hch
      simp [ht]

/-- A selected file with a non-PDF MIME type. -/
def txtFile : UploadFile := { name := "resume.txt", type := "text/plain", size := 1024 }

/-- A PDF file over the 5MB limit. -/
def bigFile : UploadFile :=
  { name := "resume.pdf", type := "application/pdf", size := 6 * 1024 * 1024 }

/-- A PDF file within the 5MB limit. -/
def okFile : UploadFile := { name := "resume.pdf", type := "application/pdf", size := 1024 }

/-- The editor state before any upload. -/
def initialState : FormState :=
  { resume := Option.none, resumeError := "", resumeFile := Option.none }

/-- C10 witness: the three outcomes evaluated on concrete files — a
text file is rejected, an oversized PDF is rejected, a small PDF is
stored. -/
theorem resume_upload_guarded_witness :
    ((handleResumeUpload "blob:1" "2026-10-12" (Option.some txtFile) initialState).resume
        = initialState.resume
      ∧ (handleResumeUpload "blob:1" "2026-10-12" (Option.some txtFile) initialState).resumeError
        = "Please upload only PDF files")
    ∧ ((handleResumeUpload "blob:1" "2026-10-12" (Option.some bigFile) initialState).resume
        = initialState.resume
      ∧ (handleResumeUpload "blob:1" "2026-10-12" (Option.some bigFile) initialState).resumeError
        = "File size should be less than 5MB")
    ∧ ((handleResumeUpload "blob:1" "2026-10-12" (Option.some okFile) initialState).resume
        = Option.some ⟨okFile.name, "blob:1", "2026-10-12"⟩
      ∧ (handleResumeUpload "blob:1" "2026-10-12" (Option.some okFile) initialState).resumeError
        = "") :=
  ⟨(resume_upload_guarded "blob:1" "2026-10-12" txtFile initialState).1 (by decide),
   (resume_upload_guarded "blob:1" "2026-10-12" bigFile initialState).2.1 rfl (by decide),
   (resume_upload_guarded "blob:1" "2026-10-12" okFile initialState).2.2.1 rfl (by decide)⟩

end ProfileEditor
